/-
Verification of the CRM GraphQL mutation/validation layer.

Shallow embedding of the repository's mutation and filter logic:
  * crm/old-schema3.py  — revised schema variant (namespace S3)
  * crm/old-schema.py   — earliest schema variant (namespace S1)
  * crm/filters.py      — declarative filter layer (namespace Filters)
  * crm/models.py       — the data model (Customer, Product, Order)

Prices are Python `Decimal` values, embedded as `Rat` (exact rational
arithmetic).  The relational store is a record of lists together with
fresh-id counters and the current time; each mutation is a pure function
`Store → Input → Payload × Store`.
-/
import Mathlib

set_option maxHeartbeats 1000000

/-! ## Time: model of `timezone.datetime` values and `fromisoformat` -/

/-- A datetime value, as produced by `timezone.now()` or
`timezone.datetime.fromisoformat`. -/
structure DateTime where
  year : Nat
  month : Nat
  day : Nat
  hour : Nat
  minute : Nat
  second : Nat
deriving Repr, DecidableEq

/-- Numeric value of a decimal digit character. -/
def digitVal (c : Char) : Nat := c.toNat - '0'.toNat

/-- Python's `str.strip()`: drop whitespace from both ends. -/
def pyStrip (s : String) : String :=
  ⟨((s.data.dropWhile Char.isWhitespace).reverse.dropWhile Char.isWhitespace).reverse⟩

/-- Python's `str.lower()` on the ASCII range. -/
def pyLower (s : String) : String :=
  ⟨s.data.map Char.toLower⟩

/-- Model of `timezone.datetime.fromisoformat` (crm/old-schema3.py line 243):
parses the ISO-8601 core `YYYY-MM-DD` optionally followed by
`THH:MM:SS` (or with a space separator), with field-range checks;
any other string fails to parse.  Day validity is approximated by the
bound `day ≤ 31` rather than the per-month calendar. -/
def fromisoformat (s : String) : Option DateTime :=
  match s.data with
  | [y1, y2, y3, y4, '-', m1, m2, '-', d1, d2] =>
    if [y1, y2, y3, y4, m1, m2, d1, d2].all Char.isDigit then
      let y := ((digitVal y1 * 10 + digitVal y2) * 10 + digitVal y3) * 10 + digitVal y4
      let m := digitVal m1 * 10 + digitVal m2
      let d := digitVal d1 * 10 + digitVal d2
      if 1 ≤ m ∧ m ≤ 12 ∧ 1 ≤ d ∧ d ≤ 31 then
        some ⟨y, m, d, 0, 0, 0⟩
      else none
    else none
  | [y1, y2, y3, y4, '-', m1, m2, '-', d1, d2, sep, h1, h2, ':', n1, n2, ':', s1, s2] =>
    if (sep = 'T' ∨ sep = ' ') ∧
        [y1, y2, y3, y4, m1, m2, d1, d2, h1, h2, n1, n2, s1, s2].all Char.isDigit then
      let y := ((digitVal y1 * 10 + digitVal y2) * 10 + digitVal y3) * 10 + digitVal y4
      let m := digitVal m1 * 10 + digitVal m2
      let d := digitVal d1 * 10 + digitVal d2
      let hh := digitVal h1 * 10 + digitVal h2
      let mm := digitVal n1 * 10 + digitVal n2
      let ss := digitVal s1 * 10 + digitVal s2
      if 1 ≤ m ∧ m ≤ 12 ∧ 1 ≤ d ∧ d ≤ 31 ∧ hh ≤ 23 ∧ mm ≤ 59 ∧ ss ≤ 59 then
        some ⟨y, m, d, hh, mm, ss⟩
      else none
    else none
  | _ => none

/-! ## Data model (crm/models.py) -/

/-- A persisted `Customer` row: name, unique email, optional phone
(crm/models.py lines 7–12). -/
structure Customer where
  id : Nat
  name : String
  email : String
  phone : Option String
deriving Repr, DecidableEq

/-- A persisted `Product` row: name, decimal price, non-negative stock
(crm/models.py lines 18–24). -/
structure Product where
  id : Nat
  name : String
  price : Rat
  stock : Nat
deriving Repr, DecidableEq

/-- A persisted `Order` row: one customer, a set of associated products
(the many-to-many relation, kept as a duplicate-free id list), an order
date and the derived total amount (crm/models.py lines 30–36). -/
structure Order where
  id : Nat
  customerId : Nat
  productIds : List Nat
  orderDate : DateTime
  totalAmount : Rat
deriving Repr, DecidableEq

/-- The relational store: the three tables, fresh primary-key counters,
and the current time returned by `timezone.now()`. -/
structure Store where
  customers : List Customer
  products : List Product
  orders : List Order
  nextCustomerId : Nat
  nextProductId : Nat
  nextOrderId : Nat
  now : DateTime
deriving Repr, DecidableEq

/-- `Customer.objects.get(pk=...)` / `.filter(pk=...)`: first row with the
given primary key. -/
def Store.findCustomer (s : Store) (pk : Nat) : Option Customer :=
  s.customers.find? (fun c => c.id = pk)

/-- `Product.objects.get(pk=...)`: first row with the given primary key. -/
def Store.findProduct (s : Store) (pk : Nat) : Option Product :=
  s.products.find? (fun p => p.id = pk)

/-- `Customer.objects.filter(email=email).exists()`. -/
def Store.emailExists (s : Store) (email : String) : Bool :=
  s.customers.any (fun c => c.email = email)

/-! ## Phone validation (crm/old-schema3.py lines 39–50, old-schema.py 34–45) -/

/-- The Unicode general-category-Nd codepoint ranges (Unicode 15.0, the
table shipped with CPython 3.12/3.13): Python's `\d` on `str` patterns,
compiled without `re.ASCII`, matches exactly these decimal digits. -/
def ndRanges : List (Nat × Nat) :=
  [(0x30, 0x39), (0x660, 0x669), (0x6F0, 0x6F9), (0x7C0, 0x7C9),
   (0x966, 0x96F), (0x9E6, 0x9EF), (0xA66, 0xA6F), (0xAE6, 0xAEF),
   (0xB66, 0xB6F), (0xBE6, 0xBEF), (0xC66, 0xC6F), (0xCE6, 0xCEF),
   (0xD66, 0xD6F), (0xDE6, 0xDEF), (0xE50, 0xE59), (0xED0, 0xED9),
   (0xF20, 0xF29), (0x1040, 0x1049), (0x1090, 0x1099), (0x17E0, 0x17E9),
   (0x1810, 0x1819), (0x1946, 0x194F), (0x19D0, 0x19D9), (0x1A80, 0x1A89),
   (0x1A90, 0x1A99), (0x1B50, 0x1B59), (0x1BB0, 0x1BB9), (0x1C40, 0x1C49),
   (0x1C50, 0x1C59), (0xA620, 0xA629), (0xA8D0, 0xA8D9), (0xA900, 0xA909),
   (0xA9D0, 0xA9D9), (0xA9F0, 0xA9F9), (0xAA50, 0xAA59), (0xABF0, 0xABF9),
   (0xFF10, 0xFF19), (0x104A0, 0x104A9), (0x10D30, 0x10D39),
   (0x11066, 0x1106F), (0x110F0, 0x110F9), (0x11136, 0x1113F),
   (0x111D0, 0x111D9), (0x112F0, 0x112F9), (0x11450, 0x11459),
   (0x114D0, 0x114D9), (0x11650, 0x11659), (0x116C0, 0x116C9),
   (0x11730, 0x11739), (0x118E0, 0x118E9), (0x11950, 0x11959),
   (0x11C50, 0x11C59), (0x11D50, 0x11D59), (0x11DA0, 0x11DA9),
   (0x11F50, 0x11F59), (0x16A60, 0x16A69), (0x16AC0, 0x16AC9),
   (0x16B50, 0x16B59), (0x1D7CE, 0x1D7FF), (0x1E140, 0x1E149),
   (0x1E2F0, 0x1E2F9), (0x1E4F0, 0x1E4F9), (0x1E950, 0x1E959),
   (0x1FBF0, 0x1FBF9)]

/-- Python's `\d` (no `re.ASCII` flag): any Unicode decimal digit. -/
def isPyDigit (c : Char) : Bool :=
  ndRanges.any (fun r => r.1 ≤ c.toNat ∧ c.toNat ≤ r.2)

/-- Full match of the pattern body `\+\d{7,15}` against the whole
character list: a `+` sign followed by 7 to 15 decimal digits. -/
def matchIntlFull (cs : List Char) : Bool :=
  match cs with
  | '+' :: rest => rest.all isPyDigit && decide (7 ≤ rest.length) && decide (rest.length ≤ 15)
  | _ => false

/-- Full match of the pattern body `\d{3}-\d{3}-\d{4}` against the whole
character list: three digits, hyphen, three digits, hyphen, four digits. -/
def matchDashedFull (cs : List Char) : Bool :=
  match cs with
  | [a, b, c, '-', d, e, f, '-', g, h, i, j] =>
    [a, b, c, d, e, f, g, h, i, j].all isPyDigit
  | _ => false

/-- Python's `rx.match` for a `^...$` pattern whose body is decided by
`F`: without `re.MULTILINE`, `$` matches at the end of the string or
just before a single newline at the end of the string, so the pattern
matches the whole input or the whole input minus one trailing `'\n'`. -/
def pyDollarMatch (F : List Char → Bool) (cs : List Char) : Bool :=
  F cs || (decide (cs.getLast? = some '\n') && F cs.dropLast)

/-- `PHONE_PATTERNS[0].match`: the compiled `^\+\d{7,15}$` applied with
Python match semantics. -/
def matchIntl (cs : List Char) : Bool :=
  pyDollarMatch matchIntlFull cs

/-- `PHONE_PATTERNS[1].match`: the compiled `^\d{3}-\d{3}-\d{4}$` applied
with Python match semantics. -/
def matchDashed (cs : List Char) : Bool :=
  pyDollarMatch matchDashedFull cs

/-- `is_valid_phone` (crm/old-schema3.py): `None` and the empty string are
accepted; otherwise the string must match one of the two compiled
`PHONE_PATTERNS`. -/
def is_valid_phone (phone : Option String) : Bool :=
  match phone with
  | none => true
  | some s =>
    if s = "" then true
    else matchIntl s.data || matchDashed s.data

/-- `validate_phone` (crm/old-schema.py lines 39–45): textually the same
check as `is_valid_phone` against the same two regexes. -/
def validate_phone (phone : Option String) : Bool :=
  is_valid_phone phone

/-! ## Mutation payloads and inputs -/

/-- `CreateCustomerInput`: required name and email, optional phone. -/
structure CreateCustomerInput where
  name : String
  email : String
  phone : Option String
deriving Repr, DecidableEq

/-- `CreateCustomerPayload` of old-schema3: record-or-null, success flag,
message, error list. -/
structure CreateCustomerPayload where
  customer : Option Customer
  success : Bool
  message : String
  errors : List String
deriving Repr, DecidableEq

/-- `BulkCreateCustomersPayload`: created records plus error strings. -/
structure BulkCreateCustomersPayload where
  customers : List Customer
  errors : List String
deriving Repr, DecidableEq

/-- `CreateProductInput`: `price` is `none` when the supplied value cannot
be converted to a `Decimal` (the `InvalidOperation`/`TypeError`/
`ValueError` arm of the source), otherwise the parsed decimal. -/
structure CreateProductInput where
  name : String
  price : Option Rat
  stock : Option Int
deriving Repr, DecidableEq

/-- `CreateProductPayload` of old-schema3. -/
structure CreateProductPayload where
  product : Option Product
  success : Bool
  message : String
  errors : List String
deriving Repr, DecidableEq

/-- `CreateOrderInput`: customer pk, product pks, optional ISO date string. -/
structure CreateOrderInput where
  customerId : Nat
  productIds : List Nat
  orderDate : Option String
deriving Repr, DecidableEq

/-- `CreateOrderPayload`: order-or-null, success flag, message, error list. -/
structure CreateOrderPayload where
  order : Option Order
  success : Bool
  message : String
  errors : List String
deriving Repr, DecidableEq

/-! ## Revised schema variant: crm/old-schema3.py -/

namespace S3

/-- Python truthiness of the normalised phone value together with the
`(input.phone or "").strip() if getattr(input, "phone", None) else None`
normalisation (old-schema3 line 78): absent or empty input gives `None`,
anything else is stripped. -/
def normPhone (phone : Option String) : Option String :=
  match phone with
  | none => none
  | some p => if p = "" then none else some (pyStrip p)

/-- `CreateCustomer.mutate` (crm/old-schema3.py lines 74–100): trims the
name, lower-cases the trimmed email, accumulates validation errors for
all violated fields, then rejects duplicate emails, then persists. -/
def CreateCustomer.mutate (s : Store) (input : CreateCustomerInput) :
    CreateCustomerPayload × Store :=
  let name := pyStrip input.name
  let email := pyLower (pyStrip input.email)
  let phone := normPhone input.phone
  let errors :=
    (if name = "" then ["Name is required."] else []) ++
    (if email = "" then ["Email is required."] else []) ++
    (match phone with
     | some p =>
       if p ≠ "" ∧ is_valid_phone (some p) = false then
         ["Phone format invalid. Expected +1234567890 or 123-456-7890."]
       else []
     | none => [])
  if errors ≠ [] then
    (⟨none, false, "Validation failed.", errors⟩, s)
  else if s.emailExists email then
    (⟨none, false, "Email already exists.", ["Email already exists."]⟩, s)
  else
    let customer : Customer := ⟨s.nextCustomerId, name, email, phone⟩
    (⟨some customer, true, "Customer created.", []⟩,
     { s with customers := s.customers ++ [customer],
              nextCustomerId := s.nextCustomerId + 1 })

/-- One iteration of the `for idx, rec in enumerate(input, start=1)` loop
of `BulkCreateCustomers.mutate` (crm/old-schema3.py lines 125–148):
validates one record against the current store, returning either the
created customer or the error string for position `idx`. -/
def bulkStep (s : Store) (idx : Nat) (rec : CreateCustomerInput) :
    (Customer ⊕ String) × Store :=
  let name := pyStrip rec.name
  let email := pyLower (pyStrip rec.email)
  let phone := normPhone rec.phone
  if name = "" then
    (Sum.inr ("Record " ++ toString idx ++ ": name is required."), s)
  else if email = "" then
    (Sum.inr ("Record " ++ toString idx ++ ": email is required."), s)
  else if (match phone with
           | some p => decide (p ≠ "") && !(is_valid_phone (some p))
           | none => false) then
    (Sum.inr ("Record " ++ toString idx ++ " (" ++ email ++ "): invalid phone format."), s)
  else if s.emailExists email then
    (Sum.inr ("Record " ++ toString idx ++ " (" ++ email ++ "): email already exists."), s)
  else
    let cust : Customer := ⟨s.nextCustomerId, name, email, phone⟩
    (Sum.inl cust,
     { s with customers := s.customers ++ [cust],
              nextCustomerId := s.nextCustomerId + 1 })

/-- The loop of `BulkCreateCustomers.mutate`, record by record from
position `idx`. -/
def bulkLoop (s : Store) (idx : Nat) : List CreateCustomerInput →
    BulkCreateCustomersPayload × Store
  | [] => (⟨[], []⟩, s)
  | rec :: rest =>
    match bulkStep s idx rec with
    | (Sum.inl cust, s') =>
      let (payload, s'') := bulkLoop s' (idx + 1) rest
      (⟨cust :: payload.customers, payload.errors⟩, s'')
    | (Sum.inr err, s') =>
      let (payload, s'') := bulkLoop s' (idx + 1) rest
      (⟨payload.customers, err :: payload.errors⟩, s'')

/-- `BulkCreateCustomers.mutate` (crm/old-schema3.py lines 119–150):
attempts each record independently, starting the position count at 1. -/
def BulkCreateCustomers.mutate (s : Store) (input : List CreateCustomerInput) :
    BulkCreateCustomersPayload × Store :=
  bulkLoop s 1 input

/-- `CreateProduct.mutate` (crm/old-schema3.py lines 171–191): rejects an
unparseable price, a non-positive price and a negative stock, in that
order; otherwise persists the product. -/
def CreateProduct.mutate (s : Store) (input : CreateProductInput) :
    CreateProductPayload × Store :=
  let name := pyStrip input.name
  let stock := input.stock.getD 0
  match input.price with
  | none =>
    (⟨none, false, "Invalid price.", ["Price must be a number."]⟩, s)
  | some price =>
    if price ≤ 0 then
      (⟨none, false, "Price must be positive.", ["Price must be positive."]⟩, s)
    else if stock < 0 then
      (⟨none, false, "Stock cannot be negative.", ["Stock cannot be negative."]⟩, s)
    else
      let product : Product := ⟨s.nextProductId, name, price, stock.toNat⟩
      (⟨some product, true, "Product created.", []⟩,
       { s with products := s.products ++ [product],
                nextProductId := s.nextProductId + 1 })

/-- `CreateOrder.mutate` (crm/old-schema3.py lines 212–263): resolves the
customer, requires a non-empty product list, resolves every product id
collecting the invalid ones, then — inside one transaction — creates the
order with the parsed-or-current date, associates the resolved products
(`order.products.set`, a duplicate-free set), and stores the sum of the
resolved products' prices as `total_amount`. -/
def CreateOrder.mutate (s : Store) (input : CreateOrderInput) :
    CreateOrderPayload × Store :=
  match s.findCustomer input.customerId with
  | none =>
    (⟨none, false, "Invalid customer ID.", ["Invalid customer ID."]⟩, s)
  | some customer =>
    if input.productIds = [] then
      (⟨none, false, "At least one product must be provided.",
        ["At least one product must be provided."]⟩, s)
    else
      let products := input.productIds.filterMap s.findProduct
      let invalid_ids := (input.productIds.filter
        (fun pid => s.findProduct pid = none)).map toString
      if invalid_ids ≠ [] then
        (⟨none, false, "Invalid product IDs provided.",
          ["Invalid product IDs: " ++ String.intercalate ", " invalid_ids]⟩, s)
      else
        let order_date :=
          match input.orderDate with
          | none => none
          | some str => if str = "" then none else fromisoformat str
        let total := (products.map Product.price).sum
        let order : Order :=
          ⟨s.nextOrderId, customer.id, (products.map Product.id).dedup,
           order_date.getD s.now, total⟩
        (⟨some order, true, "Order created.", []⟩,
         { s with orders := s.orders ++ [order],
                  nextOrderId := s.nextOrderId + 1 })

end S3

/-! ## Earliest schema variant: crm/old-schema.py -/

namespace S1

/-- `CreateCustomerPayload` of old-schema (lines 58–62): no error list,
only record, success flag and message. -/
structure CreateCustomerPayload where
  customer : Option Customer
  success : Bool
  message : String
deriving Repr, DecidableEq

/-- `CreateCustomer.mutate` (crm/old-schema.py lines 70–93): fail-fast —
first the phone format, then the duplicate email, then persist.  The
phone is `input.phone.strip() if input.phone else None`. -/
def CreateCustomer.mutate (s : Store) (input : CreateCustomerInput) :
    CreateCustomerPayload × Store :=
  let name := pyStrip input.name
  let email := pyLower (pyStrip input.email)
  let phone := S3.normPhone input.phone
  if ¬ validate_phone phone then
    (⟨none, false, "Invalid phone format. Use +1234567890 or 123-456-7890."⟩, s)
  else if s.emailExists email then
    (⟨none, false, "Email already exists."⟩, s)
  else
    let customer : Customer := ⟨s.nextCustomerId, name, email, phone⟩
    (⟨some customer, true, "Customer created."⟩,
     { s with customers := s.customers ++ [customer],
              nextCustomerId := s.nextCustomerId + 1 })

/-- One iteration of the loop of old-schema's `BulkCreateCustomers.mutate`
(lines 121–146), with old-schema's error strings. -/
def bulkStep (s : Store) (idx : Nat) (rec : CreateCustomerInput) :
    (Customer ⊕ String) × Store :=
  let name := pyStrip rec.name
  let email := pyLower (pyStrip rec.email)
  let phone := S3.normPhone rec.phone
  if name = "" then
    (Sum.inr ("Record " ++ toString idx ++ ": name is required."), s)
  else if email = "" then
    (Sum.inr ("Record " ++ toString idx ++ ": email is required."), s)
  else if ¬ validate_phone phone then
    (Sum.inr ("Record " ++ toString idx ++ ": invalid phone format for email "
      ++ email ++ "."), s)
  else if s.emailExists email then
    (Sum.inr ("Record " ++ toString idx ++ ": email " ++ email ++ " already exists."), s)
  else
    let cust : Customer := ⟨s.nextCustomerId, name, email, phone⟩
    (Sum.inl cust,
     { s with customers := s.customers ++ [cust],
              nextCustomerId := s.nextCustomerId + 1 })

/-- The loop of old-schema's `BulkCreateCustomers.mutate`. -/
def bulkLoop (s : Store) (idx : Nat) : List CreateCustomerInput →
    BulkCreateCustomersPayload × Store
  | [] => (⟨[], []⟩, s)
  | rec :: rest =>
    match bulkStep s idx rec with
    | (Sum.inl cust, s') =>
      let (payload, s'') := bulkLoop s' (idx + 1) rest
      (⟨cust :: payload.customers, payload.errors⟩, s'')
    | (Sum.inr err, s') =>
      let (payload, s'') := bulkLoop s' (idx + 1) rest
      (⟨payload.customers, err :: payload.errors⟩, s'')

/-- `BulkCreateCustomers.mutate` (crm/old-schema.py lines 114–148). -/
def BulkCreateCustomers.mutate (s : Store) (input : List CreateCustomerInput) :
    BulkCreateCustomersPayload × Store :=
  bulkLoop s 1 input

/-- `CreateOrder.mutate` (crm/old-schema.py lines 205–246): same resolution
steps as the revised variant, but each invalid product id contributes its
own error string, the optional order-date input is never read (the model
field default `timezone.now` applies), and the messages differ. -/
def CreateOrder.mutate (s : Store) (input : CreateOrderInput) :
    CreateOrderPayload × Store :=
  match s.findCustomer input.customerId with
  | none =>
    (⟨none, false, "Invalid customer ID.", ["Invalid customer ID."]⟩, s)
  | some customer =>
    if input.productIds = [] then
      (⟨none, false, "At least one product must be selected.",
        ["At least one product is required."]⟩, s)
    else
      let products := input.productIds.filterMap s.findProduct
      let errors := (input.productIds.filter
        (fun pid => s.findProduct pid = none)).map
        (fun pid => "Invalid product ID: " ++ toString pid)
      if errors ≠ [] then
        (⟨none, false, "One or more product IDs are invalid.", errors⟩, s)
      else
        let total := (products.map Product.price).sum
        let order : Order :=
          ⟨s.nextOrderId, customer.id, (products.map Product.id).dedup,
           s.now, total⟩
        (⟨some order, true, "Order created.", []⟩,
         { s with orders := s.orders ++ [order],
                  nextOrderId := s.nextOrderId + 1 })

end S1

/-! ## Filter layer: crm/filters.py -/

/-- Value of a non-empty list of digit characters, most significant first. -/
def digitsToNat (cs : List Char) : Nat :=
  cs.foldl (fun acc c => acc * 10 + digitVal c) 0

/-- Model of Python's `int(value)` on a string: optional surrounding
whitespace, an optional sign, then a non-empty run of decimal digits;
everything else raises `ValueError` (here: `none`). -/
def pyParseInt (s : String) : Option Int :=
  match (pyStrip s).data with
  | '+' :: rest =>
    if rest ≠ [] ∧ rest.all Char.isDigit then some (digitsToNat rest) else none
  | '-' :: rest =>
    if rest ≠ [] ∧ rest.all Char.isDigit then some (-(digitsToNat rest : Int)) else none
  | rest =>
    if rest ≠ [] ∧ rest.all Char.isDigit then some (digitsToNat rest) else none

namespace Filters

/-- `ProductFilter.filter_low_stock` (crm/filters.py lines 67–72): tries
`int(value)`; on `TypeError`/`ValueError` (absent value or non-numeric
string) returns the queryset unchanged, otherwise keeps the products with
`stock__lt=threshold`. -/
def ProductFilter.filter_low_stock (queryset : List Product)
    (value : Option String) : List Product :=
  match value with
  | none => queryset
  | some v =>
    match pyParseInt v with
    | none => queryset
    | some threshold => queryset.filter (fun p => (p.stock : Int) < threshold)

end Filters

/-! ## Spec-side characterisation of the phone patterns (spec §4.1)

`PhoneIntlSpec`/`PhoneDashedSpec` restate the spec's wording — "fully
matches `+` followed by 7–15 digits, OR exactly `DDD-DDD-DDDD` digit
groups. No partial matches" — with digits read as the decimal digits
`0`–`9` of the spec's examples.  `IntlPyShape`/`DashedPyShape` are the
same shapes over Python's `\d` (any Unicode decimal digit); together
with the trailing-newline allowance of `$` they characterise what the
source validator actually accepts. -/

/-- Spec wording: the string is `+` followed by 7 to 15 digits. -/
def PhoneIntlSpec (s : String) : Prop :=
  ∃ ds : List Char, s.data = '+' :: ds ∧ (∀ c ∈ ds, c.isDigit = true) ∧
    7 ≤ ds.length ∧ ds.length ≤ 15

/-- Spec wording: the string is three digits, hyphen, three digits,
hyphen, four digits. -/
def PhoneDashedSpec (s : String) : Prop :=
  ∃ g1 g2 g3 : List Char, s.data = g1 ++ '-' :: (g2 ++ '-' :: g3) ∧
    g1.length = 3 ∧ g2.length = 3 ∧ g3.length = 4 ∧
    (∀ c ∈ g1 ++ g2 ++ g3, c.isDigit = true)

/-- The first pattern body's language: `+` followed by 7 to 15 Unicode
decimal digits. -/
def IntlPyShape (cs : List Char) : Prop :=
  ∃ ds : List Char, cs = '+' :: ds ∧ (∀ c ∈ ds, isPyDigit c = true) ∧
    7 ≤ ds.length ∧ ds.length ≤ 15

/-- The second pattern body's language: three, three and four Unicode
decimal digits separated by hyphens. -/
def DashedPyShape (cs : List Char) : Prop :=
  ∃ g1 g2 g3 : List Char, cs = g1 ++ '-' :: (g2 ++ '-' :: g3) ∧
    g1.length = 3 ∧ g2.length = 3 ∧ g3.length = 4 ∧
    (∀ c ∈ g1 ++ g2 ++ g3, isPyDigit c = true)

/-- A three-element list is a literal triple. -/
theorem length_eq_three {α : Type} {l : List α} (h : l.length = 3) :
    ∃ a b c, l = [a, b, c] := by
  match l, h with
  | [a, b, c], _ => exact ⟨a, b, c, rfl⟩

/-- A four-element list is a literal quadruple. -/
theorem length_eq_four {α : Type} {l : List α} (h : l.length = 4) :
    ∃ a b c d, l = [a, b, c, d] := by
  match l, h with
  | [a, b, c, d], _ => exact ⟨a, b, c, d, rfl⟩

/-- The first pattern body matches exactly the lists of `IntlPyShape`. -/
theorem matchIntlFull_iff (cs : List Char) :
    matchIntlFull cs = true ↔ IntlPyShape cs := by
  constructor
  · intro h
    unfold matchIntlFull at h
    split at h
    · next rest =>
      refine ⟨rest, rfl, ?_, ?_, ?_⟩ <;>
        simp_all [List.all_eq_true]
    · simp at h
  · rintro ⟨ds, rfl, hdig, h7, h15⟩
    have : matchIntlFull ('+' :: ds) =
        (ds.all isPyDigit && decide (7 ≤ ds.length) && decide (ds.length ≤ 15)) := rfl
    simp [this, List.all_eq_true, h7, h15]
    exact hdig

/-- The second pattern body matches exactly the lists of `DashedPyShape`. -/
theorem matchDashedFull_iff (cs : List Char) :
    matchDashedFull cs = true ↔ DashedPyShape cs := by
  constructor
  · intro h
    unfold matchDashedFull at h
    split at h
    · next a b c d e f g hh i j =>
      refine ⟨[a, b, c], [d, e, f], [g, hh, i, j], rfl, rfl, rfl, rfl, ?_⟩
      simp_all [List.all_eq_true]
    · simp at h
  · rintro ⟨g1, g2, g3, rfl, h1, h2, h3, hdig⟩
    obtain ⟨a, b, c, rfl⟩ := length_eq_three h1
    obtain ⟨d, e, f, rfl⟩ := length_eq_three h2
    obtain ⟨g, hh, i, j, rfl⟩ := length_eq_four h3
    have heq : matchDashedFull [a, b, c, '-', d, e, f, '-', g, hh, i, j] =
        ([a, b, c, d, e, f, g, hh, i, j].all isPyDigit) := rfl
    simp only [List.cons_append, List.nil_append] at *
    simp [heq, List.all_eq_true]
    simp only [List.mem_cons, List.not_mem_nil] at hdig
    refine ⟨?_, ?_, ?_, ?_, ?_, ?_, ?_, ?_, ?_, ?_⟩ <;> apply hdig <;> tauto

/-- Python `$` match semantics: a `^...$` pattern matches the whole input
or the whole input minus a single trailing newline. -/
theorem pyDollarMatch_iff (F : List Char → Bool) (cs : List Char) :
    pyDollarMatch F cs = true ↔
      (F cs = true ∨ ∃ ds, cs = ds ++ ['\n'] ∧ F ds = true) := by
  simp only [pyDollarMatch, Bool.or_eq_true, Bool.and_eq_true, decide_eq_true_eq]
  constructor
  · rintro (h | ⟨hlast, hF⟩)
    · exact Or.inl h
    · rcases List.eq_nil_or_concat cs with rfl | ⟨ds, a, rfl⟩
      · simp at hlast
      · simp only [List.concat_eq_append] at hlast hF ⊢
        rw [List.getLast?_concat] at hlast
        obtain rfl : a = '\n' := by simpa using hlast
        exact Or.inr ⟨ds, rfl, by simpa [List.dropLast_concat] using hF⟩
  · rintro (h | ⟨ds, rfl, hF⟩)
    · exact Or.inl h
    · exact Or.inr ⟨by simp [List.getLast?_concat],
        by simpa [List.dropLast_concat] using hF⟩

/-- `PHONE_PATTERNS[0].match` accepts exactly `IntlPyShape`, possibly with
one trailing newline. -/
theorem matchIntl_iff (cs : List Char) :
    matchIntl cs = true ↔
      (IntlPyShape cs ∨ ∃ ds, cs = ds ++ ['\n'] ∧ IntlPyShape ds) := by
  rw [matchIntl, pyDollarMatch_iff]
  simp only [matchIntlFull_iff]

/-- `PHONE_PATTERNS[1].match` accepts exactly `DashedPyShape`, possibly
with one trailing newline. -/
theorem matchDashed_iff (cs : List Char) :
    matchDashed cs = true ↔
      (DashedPyShape cs ∨ ∃ ds, cs = ds ++ ['\n'] ∧ DashedPyShape ds) := by
  rw [matchDashed, pyDollarMatch_iff]
  simp only [matchDashedFull_iff]

/-- Counterexample to C4 as stated: the source validator accepts
`"+1234567\n"` — Python's `$` matches just before a trailing newline —
and `"+١٢٣٤٥٦٧"` (a plus sign followed by seven Arabic-Indic digits,
which match `\d`), although neither string fully matches `+` followed by
7–15 decimal digits `0`–`9` or the `DDD-DDD-DDDD` groups, so the claim's
"rejects every other string" fails at both inputs. -/
theorem phone_validator_counterexample :
    is_valid_phone (some "+1234567\n") = true ∧
    ¬ (PhoneIntlSpec "+1234567\n" ∨ PhoneDashedSpec "+1234567\n") ∧
    is_valid_phone (some "+١٢٣٤٥٦٧") = true ∧
    ¬ (PhoneIntlSpec "+١٢٣٤٥٦٧" ∨ PhoneDashedSpec "+١٢٣٤٥٦٧") := by
  refine ⟨by decide, ?_, by decide, ?_⟩
  · rintro (⟨ds, heq, hdig, -, -⟩ | ⟨g1, g2, g3, heq, h1, h2, h3, -⟩)
    · have heq' : ('+' :: ['1', '2', '3', '4', '5', '6', '7', '\n'] : List Char) =
          '+' :: ds := heq
      have hds : (['1', '2', '3', '4', '5', '6', '7', '\n'] : List Char) = ds := by
        injection heq'
      have : Char.isDigit '\n' = true := hdig '\n' (by rw [← hds]; simp)
      simp at this
    · have heq' : (['+', '1', '2', '3', '4', '5', '6', '7', '\n'] : List Char) =
          g1 ++ '-' :: (g2 ++ '-' :: g3) := heq
      have hlen := congrArg List.length heq'
      simp [List.length_append, h1, h2, h3] at hlen
  · rintro (⟨ds, heq, hdig, -, -⟩ | ⟨g1, g2, g3, heq, h1, h2, h3, -⟩)
    · have heq' : ('+' :: ['١', '٢', '٣', '٤', '٥', '٦', '٧'] : List Char) =
          '+' :: ds := heq
      have hds : (['١', '٢', '٣', '٤', '٥', '٦', '٧'] : List Char) = ds := by
        injection heq'
      have : Char.isDigit '١' = true := hdig '١' (by rw [← hds]; simp)
      simp at this
    · have heq' : (['+', '١', '٢', '٣', '٤', '٥', '٦', '٧'] : List Char) =
          g1 ++ '-' :: (g2 ++ '-' :: g3) := heq
      have hlen := congrArg List.length heq'
      simp [List.length_append, h1, h2, h3] at hlen

/-- C4 (amended): The phone validator accepts an absent or empty string;
it accepts a non-empty string if and only if the string — or the string
minus a single trailing newline, which Python's `$` tolerates — is `+`
followed by 7–15 Unicode decimal digits or the `DDD-DDD-DDDD` Unicode
digit groups; in particular it still rejects `"12345"`, `"abc"` and
`"+123"`, but accepts `"+1234567\n"` and `"123-456-7890\n"`. -/
theorem phone_validator_amended :
    is_valid_phone none = true ∧
    is_valid_phone (some "") = true ∧
    (∀ s : String, s ≠ "" →
      (is_valid_phone (some s) = true ↔
        (IntlPyShape s.data ∨ DashedPyShape s.data ∨
          ∃ ds, s.data = ds ++ ['\n'] ∧ (IntlPyShape ds ∨ DashedPyShape ds)))) ∧
    is_valid_phone (some "12345") = false ∧
    is_valid_phone (some "abc") = false ∧
    is_valid_phone (some "+123") = false ∧
    is_valid_phone (some "+1234567\n") = true ∧
    is_valid_phone (some "123-456-7890\n") = true := by
  refine ⟨rfl, rfl, ?_, by decide, by decide, by decide, by decide, by decide⟩
  intro s hs
  simp only [is_valid_phone, if_neg hs, Bool.or_eq_true]
  rw [matchIntl_iff, matchDashed_iff]
  constructor
  · rintro ((h | ⟨ds, heq, h⟩) | (h | ⟨ds, heq, h⟩))
    · exact Or.inl h
    · exact Or.inr (Or.inr ⟨ds, heq, Or.inl h⟩)
    · exact Or.inr (Or.inl h)
    · exact Or.inr (Or.inr ⟨ds, heq, Or.inr h⟩)
  · rintro (h | h | ⟨ds, heq, h | h⟩)
    · exact Or.inl (Or.inl h)
    · exact Or.inr (Or.inl h)
    · exact Or.inl (Or.inr ⟨ds, heq, h⟩)
    · exact Or.inr (Or.inr ⟨ds, heq, h⟩)

/-- Witness for C4's amended theorem at the non-empty string
`"+1234567\n"`, which exercises the trailing-newline alternative. -/
theorem phone_validator_amended_witness :
    is_valid_phone (some "+1234567\n") = true ↔
      (IntlPyShape ("+1234567\n" : String).data ∨
       DashedPyShape ("+1234567\n" : String).data ∨
        ∃ ds, ("+1234567\n" : String).data = ds ++ ['\n'] ∧
          (IntlPyShape ds ∨ DashedPyShape ds)) :=
  phone_validator_amended.2.2.1 "+1234567\n" (by decide)

/-- C8: A non-numeric low-stock threshold (e.g. `"abc"`) leaves every
product set unchanged — the same result as applying no filter at all —
and a numeric threshold keeps exactly the products whose stock is
strictly below the threshold. -/
theorem filter_low_stock_spec :
    (∀ qs : List Product,
      Filters.ProductFilter.filter_low_stock qs (some "abc") = qs ∧
      Filters.ProductFilter.filter_low_stock qs (some "abc") =
        Filters.ProductFilter.filter_low_stock qs none) ∧
    (∀ (qs : List Product) (v : String) (t : Int), pyParseInt v = some t →
      ∀ p : Product,
        (p ∈ Filters.ProductFilter.filter_low_stock qs (some v) ↔
          p ∈ qs ∧ (p.stock : Int) < t)) ∧
    (∀ (qs : List Product) (v : String), pyParseInt v = none →
      Filters.ProductFilter.filter_low_stock qs (some v) =
        Filters.ProductFilter.filter_low_stock qs none) := by
  refine ⟨?_, ?_, ?_⟩
  · intro qs
    constructor <;>
      simp [Filters.ProductFilter.filter_low_stock,
        show pyParseInt "abc" = none from rfl]
  · intro qs v t hparse p
    simp [Filters.ProductFilter.filter_low_stock, hparse, List.mem_filter]
  · intro qs v hparse
    simp [Filters.ProductFilter.filter_low_stock, hparse]

/-- Witness for C8 at the numeric threshold `"5"` and a one-product set. -/
theorem filter_low_stock_spec_witness :
    pyParseInt "5" = some 5 ∧
    ((⟨1, "A", 1, 2⟩ : Product) ∈
        Filters.ProductFilter.filter_low_stock [⟨1, "A", 1, 2⟩] (some "5") ↔
      (⟨1, "A", 1, 2⟩ : Product) ∈ ([⟨1, "A", 1, 2⟩] : List Product) ∧
        (((⟨1, "A", 1, 2⟩ : Product).stock : Int) < 5)) :=
  ⟨by decide, filter_low_stock_spec.2.1 [⟨1, "A", 1, 2⟩] "5" 5 (by decide) ⟨1, "A", 1, 2⟩⟩

/-- C5: Bulk-creating `[{A, a@x.com}, {"", b@x.com}, {C, a@x.com}]`
against an empty store yields exactly one created record (A) and two
errors: missing name at position 2 and duplicate email at position 3
(caught because the store is re-queried per record), in both schema
variants with their respective error strings. -/
theorem bulk_create_example :
    (S3.BulkCreateCustomers.mutate ⟨[], [], [], 1, 1, 1, ⟨2025, 1, 1, 0, 0, 0⟩⟩
        [⟨"A", "a@x.com", none⟩, ⟨"", "b@x.com", none⟩, ⟨"C", "a@x.com", none⟩]).1 =
      ⟨[⟨1, "A", "a@x.com", none⟩],
       ["Record 2: name is required.",
        "Record 3 (a@x.com): email already exists."]⟩ ∧
    (S1.BulkCreateCustomers.mutate ⟨[], [], [], 1, 1, 1, ⟨2025, 1, 1, 0, 0, 0⟩⟩
        [⟨"A", "a@x.com", none⟩, ⟨"", "b@x.com", none⟩, ⟨"C", "a@x.com", none⟩]).1 =
      ⟨[⟨1, "A", "a@x.com", none⟩],
       ["Record 2: name is required.",
        "Record 3: email a@x.com already exists."]⟩ := by
  constructor <;> rfl

/-- Helper for C10: the revised bulk loop produces one outcome per input
record, for every starting store and position. -/
theorem s3_bulkLoop_conserves (recs : List CreateCustomerInput) :
    ∀ (s : Store) (idx : Nat),
      (S3.bulkLoop s idx recs).1.customers.length +
        (S3.bulkLoop s idx recs).1.errors.length = recs.length := by
  induction recs with
  | nil => intro s idx; rfl
  | cons rec rest ih =>
    intro s idx
    simp only [S3.bulkLoop]
    rcases h : S3.bulkStep s idx rec with ⟨out, s'⟩
    rcases h2 : S3.bulkLoop s' (idx + 1) rest with ⟨payload, s''⟩
    have := ih s' (idx + 1)
    rw [h2] at this
    cases out <;> simp_all <;> omega

/-- Helper for C10: the earliest bulk loop produces one outcome per input
record, for every starting store and position. -/
theorem s1_bulkLoop_conserves (recs : List CreateCustomerInput) :
    ∀ (s : Store) (idx : Nat),
      (S1.bulkLoop s idx recs).1.customers.length +
        (S1.bulkLoop s idx recs).1.errors.length = recs.length := by
  induction recs with
  | nil => intro s idx; rfl
  | cons rec rest ih =>
    intro s idx
    simp only [S1.bulkLoop]
    rcases h : S1.bulkStep s idx rec with ⟨out, s'⟩
    rcases h2 : S1.bulkLoop s' (idx + 1) rest with ⟨payload, s''⟩
    have := ih s' (idx + 1)
    rw [h2] at this
    cases out <;> simp_all <;> omega

/-! ## Order creation: resolution helpers -/

/-- A resolved product row carries the primary key it was looked up by. -/
theorem findProduct_id {s : Store} {pid : Nat} {p : Product}
    (h : s.findProduct pid = some p) : p.id = pid := by
  have := List.find?_some h
  simpa using this

/-- When every product reference resolves, the resolved rows' ids are the
reference list itself. -/
theorem resolve_all_map_id (s : Store) (ids : List Nat)
    (h : ∀ pid ∈ ids, s.findProduct pid ≠ none) :
    (ids.filterMap s.findProduct).map Product.id = ids := by
  induction ids with
  | nil => rfl
  | cons pid rest ih =>
    obtain ⟨p, hp⟩ := Option.ne_none_iff_exists'.mp (h pid (by simp))
    rw [List.filterMap_cons, hp, List.map_cons, findProduct_id hp,
      ih (fun q hq => h q (by simp [hq]))]

/-- When every product reference resolves, no reference is collected as
invalid. -/
theorem resolve_all_filter_nil (s : Store) (ids : List Nat)
    (h : ∀ pid ∈ ids, s.findProduct pid ≠ none) :
    ids.filter (fun pid => s.findProduct pid = none) = [] := by
  rw [List.filter_eq_nil_iff]
  intro pid hpid
  simpa using h pid hpid

/-- The order row built by the success branch of the revised
`CreateOrder.mutate`: fresh pk, the resolved customer, the de-duplicated
associated products, the parsed-or-current date, and the price sum. -/
def S3.resolvedOrder (s : Store) (input : CreateOrderInput)
    (customer : Customer) : Order :=
  ⟨s.nextOrderId, customer.id,
   ((input.productIds.filterMap s.findProduct).map Product.id).dedup,
   (match input.orderDate with
    | none => none
    | some str => if str = "" then none else fromisoformat str).getD s.now,
   ((input.productIds.filterMap s.findProduct).map Product.price).sum⟩

/-- Success-branch characterisation of the revised `CreateOrder.mutate`:
with a resolving customer, a non-empty reference list and fully resolving
product references, the mutation persists exactly `resolvedOrder`. -/
theorem s3_createOrder_resolved (s : Store) (input : CreateOrderInput)
    (customer : Customer)
    (hcust : s.findCustomer input.customerId = some customer)
    (hne : input.productIds ≠ [])
    (hres : ∀ pid ∈ input.productIds, s.findProduct pid ≠ none) :
    S3.CreateOrder.mutate s input =
      (⟨some (S3.resolvedOrder s input customer), true, "Order created.", []⟩,
       { s with orders := s.orders ++ [S3.resolvedOrder s input customer],
                nextOrderId := s.nextOrderId + 1 }) := by
  unfold S3.CreateOrder.mutate
  rw [hcust]
  have hfilter := resolve_all_filter_nil s input.productIds hres
  simp only [if_neg hne, hfilter, List.map_nil, ne_eq, not_true_eq_false, if_neg,
    not_false_eq_true, S3.resolvedOrder]

/-- The order row built by the success branch of the earliest
`CreateOrder.mutate`: as in the revised variant, but the order-date input
is never read, so the model default `timezone.now` always applies. -/
def S1.resolvedOrder (s : Store) (input : CreateOrderInput)
    (customer : Customer) : Order :=
  ⟨s.nextOrderId, customer.id,
   ((input.productIds.filterMap s.findProduct).map Product.id).dedup,
   s.now,
   ((input.productIds.filterMap s.findProduct).map Product.price).sum⟩

/-- Success-branch characterisation of the earliest `CreateOrder.mutate`. -/
theorem s1_createOrder_resolved (s : Store) (input : CreateOrderInput)
    (customer : Customer)
    (hcust : s.findCustomer input.customerId = some customer)
    (hne : input.productIds ≠ [])
    (hres : ∀ pid ∈ input.productIds, s.findProduct pid ≠ none) :
    S1.CreateOrder.mutate s input =
      (⟨some (S1.resolvedOrder s input customer), true, "Order created.", []⟩,
       { s with orders := s.orders ++ [S1.resolvedOrder s input customer],
                nextOrderId := s.nextOrderId + 1 }) := by
  unfold S1.CreateOrder.mutate
  rw [hcust]
  have hfilter := resolve_all_filter_nil s input.productIds hres
  simp only [if_neg hne, hfilter, List.map_nil, ne_eq, not_true_eq_false, if_neg,
    not_false_eq_true, S1.resolvedOrder]

/-- C10: Bulk customer creation conserves records one-to-one — each input
record yields exactly one created customer or exactly one error string,
so created plus errors always equals the input length, in both variants. -/
theorem bulk_create_conservation (recs : List CreateCustomerInput) (s : Store) :
    (S3.BulkCreateCustomers.mutate s recs).1.customers.length +
      (S3.BulkCreateCustomers.mutate s recs).1.errors.length = recs.length ∧
    (S1.BulkCreateCustomers.mutate s recs).1.customers.length +
      (S1.BulkCreateCustomers.mutate s recs).1.errors.length = recs.length :=
  ⟨s3_bulkLoop_conserves recs s 1, s1_bulkLoop_conserves recs s 1⟩

/-- A small concrete store used by the example parts of the claims: one
customer and two products priced 10.00 and 5.25. -/
def demoStore : Store :=
  ⟨[⟨1, "Alice", "alice@x.com", none⟩],
   [⟨1, "Widget", 10, 5⟩, ⟨2, "Gadget", (21 : Rat)/4, 3⟩],
   [], 2, 3, 1, ⟨2025, 1, 1, 0, 0, 0⟩⟩

/-- C1: Every successful create-order invocation (existing customer,
non-empty reference list, all references resolving) persists exactly one
new order whose `total_amount` is the sum of the resolved products'
prices and whose associated products are exactly the given references,
in both schema variants; in particular two products priced 10.00 and
5.25 yield `total_amount = 15.25`. -/
theorem create_order_total_and_products :
    (∀ (s : Store) (input : CreateOrderInput) (customer : Customer),
      s.findCustomer input.customerId = some customer →
      input.productIds ≠ [] →
      (∀ pid ∈ input.productIds, s.findProduct pid ≠ none) →
      ∃ o3 o1 : Order,
        (S3.CreateOrder.mutate s input).1 = ⟨some o3, true, "Order created.", []⟩ ∧
        (S3.CreateOrder.mutate s input).2.orders = s.orders ++ [o3] ∧
        (S1.CreateOrder.mutate s input).1 = ⟨some o1, true, "Order created.", []⟩ ∧
        (S1.CreateOrder.mutate s input).2.orders = s.orders ++ [o1] ∧
        o3.totalAmount =
          ((input.productIds.filterMap s.findProduct).map Product.price).sum ∧
        o1.totalAmount = o3.totalAmount ∧
        o3.customerId = customer.id ∧
        (∀ pid, pid ∈ o3.productIds ↔ pid ∈ input.productIds) ∧
        o1.productIds = o3.productIds) ∧
    ((S3.CreateOrder.mutate demoStore ⟨1, [1, 2], none⟩).1.order.map
        Order.totalAmount = some ((61 : Rat)/4) ∧
     (S3.CreateOrder.mutate demoStore ⟨1, [1, 2], none⟩).1.order.map
        Order.productIds = some [1, 2]) := by
  constructor
  · intro s input customer hcust hne hres
    refine ⟨S3.resolvedOrder s input customer, S1.resolvedOrder s input customer,
      ?_, ?_, ?_, ?_, ?_, ?_, ?_, ?_, ?_⟩
    · rw [s3_createOrder_resolved s input customer hcust hne hres]
    · rw [s3_createOrder_resolved s input customer hcust hne hres]
    · rw [s1_createOrder_resolved s input customer hcust hne hres]
    · rw [s1_createOrder_resolved s input customer hcust hne hres]
    · rfl
    · rfl
    · rfl
    · intro pid
      simp only [S3.resolvedOrder, List.mem_dedup,
        resolve_all_map_id s input.productIds hres]
    · rfl
  · have h3 := s3_createOrder_resolved demoStore ⟨1, [1, 2], none⟩
      ⟨1, "Alice", "alice@x.com", none⟩ rfl (by decide) (by decide)
    have hfm : List.filterMap demoStore.findProduct [1, 2] =
        [⟨1, "Widget", 10, 5⟩, ⟨2, "Gadget", (21 : Rat)/4, 3⟩] := rfl
    constructor
    · rw [h3]
      simp only [S3.resolvedOrder, Option.map_some']
      rw [hfm]
      simp only [List.map_cons, List.map_nil, List.sum_cons, List.sum_nil]
      norm_num
    · rw [h3]
      simp only [S3.resolvedOrder, Option.map_some']
      rw [hfm]
      rfl

/-- Witness for C1: the general part applied to the concrete store with
products priced 10.00 and 5.25. -/
theorem create_order_total_and_products_witness :
    ∃ o3 o1 : Order,
      (S3.CreateOrder.mutate demoStore ⟨1, [1, 2], none⟩).1 =
        ⟨some o3, true, "Order created.", []⟩ ∧
      (S3.CreateOrder.mutate demoStore ⟨1, [1, 2], none⟩).2.orders =
        demoStore.orders ++ [o3] ∧
      (S1.CreateOrder.mutate demoStore ⟨1, [1, 2], none⟩).1 =
        ⟨some o1, true, "Order created.", []⟩ ∧
      (S1.CreateOrder.mutate demoStore ⟨1, [1, 2], none⟩).2.orders =
        demoStore.orders ++ [o1] ∧
      o3.totalAmount =
        (([1, 2].filterMap demoStore.findProduct).map Product.price).sum ∧
      o1.totalAmount = o3.totalAmount ∧
      o3.customerId = (⟨1, "Alice", "alice@x.com", none⟩ : Customer).id ∧
      (∀ pid, pid ∈ o3.productIds ↔ pid ∈ [1, 2]) ∧
      o1.productIds = o3.productIds :=
  create_order_total_and_products.1 demoStore ⟨1, [1, 2], none⟩
    ⟨1, "Alice", "alice@x.com", none⟩ (by decide) (by decide) (by decide)

/-- Counterexample to C2 as stated: in the invocation `(customer 999,
products [99])` against `demoStore`, the product reference 99 fails to
resolve, yet — because the customer reference also fails — the payload
reports only the customer error and never mentions the unresolved
product reference (no digit `9` occurs in any error string). -/
theorem create_order_unresolved_counterexample :
    demoStore.findProduct 99 = none ∧
    (S3.CreateOrder.mutate demoStore ⟨999, [99], none⟩).1.message =
      "Invalid customer ID." ∧
    (S3.CreateOrder.mutate demoStore ⟨999, [99], none⟩).1.errors =
      ["Invalid customer ID."] ∧
    (∀ e ∈ (S3.CreateOrder.mutate demoStore ⟨999, [99], none⟩).1.errors,
      '9' ∉ e.data) ∧
    (S1.CreateOrder.mutate demoStore ⟨999, [99], none⟩).1.errors =
      ["Invalid customer ID."] := by
  refine ⟨by decide, by decide, by decide, by decide, by decide⟩

/-- C2 (amended): for every create-order invocation whose customer
reference resolves and in which at least one product reference fails to
resolve, the mutation fails with a payload listing exactly all
unresolved references (collect-all), no order is persisted and the store
is unchanged — in both variants; and whenever any product reference
fails to resolve, regardless of customer resolution, the store is left
unchanged. -/
theorem create_order_invalid_products_atomic :
    (∀ (s : Store) (input : CreateOrderInput) (customer : Customer),
      s.findCustomer input.customerId = some customer →
      (∃ pid ∈ input.productIds, s.findProduct pid = none) →
      (S3.CreateOrder.mutate s input).1 =
        ⟨none, false, "Invalid product IDs provided.",
         ["Invalid product IDs: " ++ String.intercalate ", "
           ((input.productIds.filter (fun pid => s.findProduct pid = none)).map
             toString)]⟩ ∧
      (S3.CreateOrder.mutate s input).2 = s ∧
      (S1.CreateOrder.mutate s input).1 =
        ⟨none, false, "One or more product IDs are invalid.",
         (input.productIds.filter (fun pid => s.findProduct pid = none)).map
           (fun pid => "Invalid product ID: " ++ toString pid)⟩ ∧
      (S1.CreateOrder.mutate s input).2 = s) ∧
    (∀ (s : Store) (input : CreateOrderInput),
      (∃ pid ∈ input.productIds, s.findProduct pid = none) →
      (S3.CreateOrder.mutate s input).2 = s ∧
      (S1.CreateOrder.mutate s input).2 = s) := by
  have key : ∀ (s : Store) (input : CreateOrderInput) (customer : Customer),
      s.findCustomer input.customerId = some customer →
      (∃ pid ∈ input.productIds, s.findProduct pid = none) →
      (S3.CreateOrder.mutate s input).1 =
        ⟨none, false, "Invalid product IDs provided.",
         ["Invalid product IDs: " ++ String.intercalate ", "
           ((input.productIds.filter (fun pid => s.findProduct pid = none)).map
             toString)]⟩ ∧
      (S3.CreateOrder.mutate s input).2 = s ∧
      (S1.CreateOrder.mutate s input).1 =
        ⟨none, false, "One or more product IDs are invalid.",
         (input.productIds.filter (fun pid => s.findProduct pid = none)).map
           (fun pid => "Invalid product ID: " ++ toString pid)⟩ ∧
      (S1.CreateOrder.mutate s input).2 = s := by
    intro s input customer hcust hbad
    obtain ⟨pid, hmem, hnone⟩ := hbad
    have hne : input.productIds ≠ [] := List.ne_nil_of_mem hmem
    have hfmem : pid ∈ input.productIds.filter
        (fun pid => s.findProduct pid = none) := by
      rw [List.mem_filter]
      exact ⟨hmem, by simp [hnone]⟩
    have hfne : input.productIds.filter
        (fun pid => s.findProduct pid = none) ≠ [] :=
      List.ne_nil_of_mem hfmem
    constructor
    · unfold S3.CreateOrder.mutate
      rw [hcust]
      simp only [if_neg hne]
      rw [if_pos (by simpa using hfne)]
    constructor
    · unfold S3.CreateOrder.mutate
      rw [hcust]
      simp only [if_neg hne]
      rw [if_pos (by simpa using hfne)]
    constructor
    · unfold S1.CreateOrder.mutate
      rw [hcust]
      simp only [if_neg hne]
      rw [if_pos (by simpa using hfne)]
    · unfold S1.CreateOrder.mutate
      rw [hcust]
      simp only [if_neg hne]
      rw [if_pos (by simpa using hfne)]
  refine ⟨key, ?_⟩
  intro s input hbad
  obtain ⟨pid, hmem, hnone⟩ := hbad
  have hne : input.productIds ≠ [] := List.ne_nil_of_mem hmem
  rcases hc : s.findCustomer input.customerId with _ | customer
  · constructor
    · unfold S3.CreateOrder.mutate
      rw [hc]
    · unfold S1.CreateOrder.mutate
      rw [hc]
  · have := key s input customer hc ⟨pid, hmem, hnone⟩
    exact ⟨this.2.1, this.2.2.2⟩

/-- Witness for C2's amended theorem at the invocation `(customer 1,
products [1, 99])` against `demoStore`, where only reference 99 fails. -/
theorem create_order_invalid_products_atomic_witness :
    (S3.CreateOrder.mutate demoStore ⟨1, [1, 99], none⟩).1 =
      ⟨none, false, "Invalid product IDs provided.",
       ["Invalid product IDs: " ++ String.intercalate ", "
         (([1, 99].filter (fun pid => demoStore.findProduct pid = none)).map
           toString)]⟩ ∧
    (S3.CreateOrder.mutate demoStore ⟨1, [1, 99], none⟩).2 = demoStore ∧
    (S1.CreateOrder.mutate demoStore ⟨1, [1, 99], none⟩).1 =
      ⟨none, false, "One or more product IDs are invalid.",
       (([1, 99].filter (fun pid => demoStore.findProduct pid = none)).map
         (fun pid => "Invalid product ID: " ++ toString pid))⟩ ∧
    (S1.CreateOrder.mutate demoStore ⟨1, [1, 99], none⟩).2 = demoStore :=
  create_order_invalid_products_atomic.1 demoStore ⟨1, [1, 99], none⟩
    ⟨1, "Alice", "alice@x.com", none⟩ (by decide) ⟨99, by decide, by decide⟩

/-- C9: When the optional order-timestamp string is present but fails to
parse as ISO-8601, the revised create-order mutation still succeeds
(given a resolving customer and resolving, non-empty products), the
current time is substituted as the order date, and the payload surfaces
no error. -/
theorem create_order_bad_date_fallback :
    ∀ (s : Store) (input : CreateOrderInput) (customer : Customer)
      (dateStr : String),
      s.findCustomer input.customerId = some customer →
      input.productIds ≠ [] →
      (∀ pid ∈ input.productIds, s.findProduct pid ≠ none) →
      input.orderDate = some dateStr →
      fromisoformat dateStr = none →
      ∃ order : Order,
        (S3.CreateOrder.mutate s input).1 =
          ⟨some order, true, "Order created.", []⟩ ∧
        order.orderDate = s.now := by
  intro s input customer dateStr hcust hne hres hdate hparse
  refine ⟨S3.resolvedOrder s input customer, ?_, ?_⟩
  · rw [s3_createOrder_resolved s input customer hcust hne hres]
  · simp only [S3.resolvedOrder, hdate]
    by_cases hempty : dateStr = "" <;> simp [hempty, hparse]

/-- Witness for C9 at the unparseable timestamp string `"bogus"`. -/
theorem create_order_bad_date_fallback_witness :
    ∃ order : Order,
      (S3.CreateOrder.mutate demoStore ⟨1, [1, 2], some "bogus"⟩).1 =
        ⟨some order, true, "Order created.", []⟩ ∧
      order.orderDate = demoStore.now :=
  create_order_bad_date_fallback demoStore ⟨1, [1, 2], some "bogus"⟩
    ⟨1, "Alice", "alice@x.com", none⟩ "bogus" (by decide) (by decide) (by decide)
    rfl (by decide)

/-- Counterexample to C3 as stated: against `demoStore` (which stores
`alice@x.com` lower-cased), the invocation with the duplicate email
`"ALICE@x.com"` but an empty name yields `success = false` with only the
missing-name error — not a duplicate-email error; likewise, in the
earliest variant, a duplicate email with an invalid phone yields only
the phone error. -/
theorem create_customer_duplicate_counterexample :
    demoStore.emailExists (pyLower (pyStrip "ALICE@x.com")) = true ∧
    (S3.CreateCustomer.mutate demoStore ⟨"", "ALICE@x.com", none⟩).1.success = false ∧
    (S3.CreateCustomer.mutate demoStore ⟨"", "ALICE@x.com", none⟩).1.errors =
      ["Name is required."] ∧
    (S3.CreateCustomer.mutate demoStore ⟨"", "ALICE@x.com", none⟩).1.message ≠
      "Email already exists." ∧
    (S1.CreateCustomer.mutate demoStore ⟨"Bob", "ALICE@x.com", some "abc"⟩).1.message =
      "Invalid phone format. Use +1234567890 or 123-456-7890." := by
  refine ⟨by decide, by decide, by decide, by decide, by decide⟩

/-- C3 (amended): whenever the lower-cased, trimmed email already exists
in the store, no second record is created (the store is unchanged), in
both variants; and if additionally the input passes field validation
(non-empty trimmed name and email, absent-or-valid phone), the mutation
returns `success = false` with exactly the duplicate-email error. -/
theorem create_customer_duplicate_amended :
    (∀ (s : Store) (input : CreateCustomerInput),
      s.emailExists (pyLower (pyStrip input.email)) = true →
      (S3.CreateCustomer.mutate s input).2 = s ∧
      (S1.CreateCustomer.mutate s input).2 = s) ∧
    (∀ (s : Store) (input : CreateCustomerInput),
      s.emailExists (pyLower (pyStrip input.email)) = true →
      pyStrip input.name ≠ "" →
      pyLower (pyStrip input.email) ≠ "" →
      is_valid_phone (S3.normPhone input.phone) = true →
      (S3.CreateCustomer.mutate s input).1 =
        ⟨none, false, "Email already exists.", ["Email already exists."]⟩ ∧
      (S1.CreateCustomer.mutate s input).1 =
        ⟨none, false, "Email already exists."⟩) := by
  constructor
  · intro s input hex
    constructor
    · simp only [S3.CreateCustomer.mutate]
      rcases hp : S3.normPhone input.phone with _ | p <;>
        simp only [hp] <;> split_ifs <;> rfl
    · simp only [S1.CreateCustomer.mutate]
      split_ifs <;> rfl
  · intro s input hex hname hemail hph
    rcases hp : S3.normPhone input.phone with _ | p
    · rw [hp] at hph
      constructor
      · simp [S3.CreateCustomer.mutate, hp, hname, hemail, hex]
      · simp [S1.CreateCustomer.mutate, hp, hex, validate_phone, is_valid_phone]
    · rw [hp] at hph
      constructor
      · simp [S3.CreateCustomer.mutate, hp, hname, hemail, hph, hex]
      · simp [S1.CreateCustomer.mutate, hp, hex, validate_phone, hph]

/-- Witness for C3's amended theorem: a fully valid input whose email
duplicates the stored `alice@x.com` case-insensitively. -/
theorem create_customer_duplicate_amended_witness :
    (S3.CreateCustomer.mutate demoStore ⟨"Bob", "ALICE@x.com", none⟩).1 =
      ⟨none, false, "Email already exists.", ["Email already exists."]⟩ ∧
    (S1.CreateCustomer.mutate demoStore ⟨"Bob", "ALICE@x.com", none⟩).1 =
      ⟨none, false, "Email already exists."⟩ :=
  create_customer_duplicate_amended.2 demoStore ⟨"Bob", "ALICE@x.com", none⟩
    (by decide) (by decide) (by decide) (by decide)

/-- C6: The revised create-product mutation fails with an invalid-value
error and leaves the store unchanged when the price cannot be parsed as
a decimal, when the parsed price is non-positive, or when the stock is
negative; for valid input it persists exactly one product whose stored
price equals the input price. -/
theorem create_product_validation :
    (∀ (s : Store) (input : CreateProductInput), input.price = none →
      (S3.CreateProduct.mutate s input).1 =
        ⟨none, false, "Invalid price.", ["Price must be a number."]⟩ ∧
      (S3.CreateProduct.mutate s input).2 = s) ∧
    (∀ (s : Store) (input : CreateProductInput) (price : Rat),
      input.price = some price → price ≤ 0 →
      (S3.CreateProduct.mutate s input).1 =
        ⟨none, false, "Price must be positive.", ["Price must be positive."]⟩ ∧
      (S3.CreateProduct.mutate s input).2 = s) ∧
    (∀ (s : Store) (input : CreateProductInput) (price : Rat),
      input.price = some price → 0 < price → input.stock.getD 0 < 0 →
      (S3.CreateProduct.mutate s input).1 =
        ⟨none, false, "Stock cannot be negative.", ["Stock cannot be negative."]⟩ ∧
      (S3.CreateProduct.mutate s input).2 = s) ∧
    (∀ (s : Store) (input : CreateProductInput) (price : Rat),
      input.price = some price → 0 < price → 0 ≤ input.stock.getD 0 →
      ∃ product : Product,
        (S3.CreateProduct.mutate s input).1 =
          ⟨some product, true, "Product created.", []⟩ ∧
        product.price = price ∧
        (S3.CreateProduct.mutate s input).2.products = s.products ++ [product]) := by
  refine ⟨?_, ?_, ?_, ?_⟩
  · intro s input h
    constructor <;> simp [S3.CreateProduct.mutate, h]
  · intro s input price h hle
    constructor <;> simp [S3.CreateProduct.mutate, h, hle]
  · intro s input price h hpos hstock
    constructor <;>
      simp [S3.CreateProduct.mutate, h, not_le.mpr hpos, hstock]
  · intro s input price h hpos hstock
    refine ⟨⟨s.nextProductId, pyStrip input.name, price, (input.stock.getD 0).toNat⟩,
      ?_, rfl, ?_⟩ <;>
      simp [S3.CreateProduct.mutate, h, not_le.mpr hpos, not_lt.mpr hstock]

/-- Witness for C6: price 0 fails with the invalid-price error, and price
10.50 with stock 3 succeeds with stored price 10.50. -/
theorem create_product_validation_witness :
    ((S3.CreateProduct.mutate demoStore ⟨"P", some 0, none⟩).1 =
      ⟨none, false, "Price must be positive.", ["Price must be positive."]⟩ ∧
     (S3.CreateProduct.mutate demoStore ⟨"P", some 0, none⟩).2 = demoStore) ∧
    (∃ product : Product,
      (S3.CreateProduct.mutate demoStore ⟨"P", some ((21 : Rat)/2), some 3⟩).1 =
        ⟨some product, true, "Product created.", []⟩ ∧
      product.price = (21 : Rat)/2 ∧
      (S3.CreateProduct.mutate demoStore ⟨"P", some ((21 : Rat)/2), some 3⟩).2.products =
        demoStore.products ++ [product]) :=
  ⟨create_product_validation.2.1 demoStore ⟨"P", some 0, none⟩ 0 rfl le_rfl,
   create_product_validation.2.2.2 demoStore ⟨"P", some ((21 : Rat)/2), some 3⟩
     ((21 : Rat)/2) rfl (by norm_num) (by decide)⟩

/-- C7: When the input violates the name, email and phone rules at once,
the revised create-customer mutation fails with an error list containing
an entry for every violated field simultaneously, and creates nothing. -/
theorem create_customer_accumulates_errors :
    ∀ (s : Store) (input : CreateCustomerInput) (p : String),
      pyStrip input.name = "" →
      pyLower (pyStrip input.email) = "" →
      input.phone = some p → p ≠ "" → pyStrip p ≠ "" →
      is_valid_phone (some (pyStrip p)) = false →
      (S3.CreateCustomer.mutate s input).1 =
        ⟨none, false, "Validation failed.",
         ["Name is required.", "Email is required.",
          "Phone format invalid. Expected +1234567890 or 123-456-7890."]⟩ ∧
      (S3.CreateCustomer.mutate s input).2 = s := by
  intro s input p hname hemail hphone hpne hpsne hinv
  have hp : S3.normPhone input.phone = some (pyStrip p) := by
    simp [S3.normPhone, hphone, hpne]
  constructor <;>
    simp [S3.CreateCustomer.mutate, hp, hname, hemail, hpsne, hinv]

/-- Witness for C7 at the all-invalid input `(name "  ", email "",
phone "abc")`. -/
theorem create_customer_accumulates_errors_witness :
    (S3.CreateCustomer.mutate demoStore ⟨"  ", "", some "abc"⟩).1 =
      ⟨none, false, "Validation failed.",
       ["Name is required.", "Email is required.",
        "Phone format invalid. Expected +1234567890 or 123-456-7890."]⟩ ∧
    (S3.CreateCustomer.mutate demoStore ⟨"  ", "", some "abc"⟩).2 = demoStore :=
  create_customer_accumulates_errors demoStore ⟨"  ", "", some "abc"⟩ "abc"
    (by decide) (by decide) rfl (by decide) (by decide) (by decide)

/-- Witness for C10 at a concrete two-record batch (one success, one
failure) against `demoStore`. -/
theorem bulk_create_conservation_witness :
    (S3.BulkCreateCustomers.mutate demoStore
        [⟨"A", "a@x.com", none⟩, ⟨"", "", none⟩]).1.customers.length +
      (S3.BulkCreateCustomers.mutate demoStore
        [⟨"A", "a@x.com", none⟩, ⟨"", "", none⟩]).1.errors.length = 2 ∧
    (S1.BulkCreateCustomers.mutate demoStore
        [⟨"A", "a@x.com", none⟩, ⟨"", "", none⟩]).1.customers.length +
      (S1.BulkCreateCustomers.mutate demoStore
        [⟨"A", "a@x.com", none⟩, ⟨"", "", none⟩]).1.errors.length = 2 :=
  bulk_create_conservation [⟨"A", "a@x.com", none⟩, ⟨"", "", none⟩] demoStore
